import Mathlib

set_option maxRecDepth 100000

/-!
Verification development for the Mira multi-agent synthetic trading engine.

Each definition below is a shallow embedding of a function of the repository
(file and line references in the doc comments).  JavaScript numbers are
modelled as `ℚ`, millisecond timestamps as `ℤ`, and fallible evaluation as
`Except`.  Definitions marked `Modelled from the spec:` correspond to code of
the repository that is not present under `src/` and are taken from the
specification's words instead.
-/

/-! ## SHA-256 (Node `crypto.createHash('sha256')`)

`deterministicNumber` in `src/unnamed/part_009` (lines 23-27) hashes the seed
string with SHA-256 and reads the first four bytes as a big-endian 32-bit
integer.  The implementation below is plain FIPS 180-4 SHA-256 over byte
lists, executable by the kernel. -/

namespace SHA256

/-- Truncate to 32 bits. -/
def w32 (x : Nat) : Nat := x % 4294967296

/-- Rotate a 32-bit value right by `n`. -/
def rotr (n x : Nat) : Nat := w32 ((x >>> n) ||| (x <<< (32 - n)))

def bsig0 (x : Nat) : Nat := rotr 2 x ^^^ rotr 13 x ^^^ rotr 22 x
def bsig1 (x : Nat) : Nat := rotr 6 x ^^^ rotr 11 x ^^^ rotr 25 x
def ssig0 (x : Nat) : Nat := rotr 7 x ^^^ rotr 18 x ^^^ (x >>> 3)
def ssig1 (x : Nat) : Nat := rotr 17 x ^^^ rotr 19 x ^^^ (x >>> 10)

def ch (x y z : Nat) : Nat := (x &&& y) ^^^ ((x ^^^ 4294967295) &&& z)
def maj (x y z : Nat) : Nat := (x &&& y) ^^^ (x &&& z) ^^^ (y &&& z)

/-- The 64 round constants (FIPS 180-4 section 4.2.2, written in decimal). -/
def K : List Nat :=
  [1116352408, 1899447441, 3049323471, 3921009573, 961987163, 1508970993,
   2453635748, 2870763221, 3624381080, 310598401, 607225278, 1426881987,
   1925078388, 2162078206, 2614888103, 3248222580, 3835390401, 4022224774,
   264347078, 604807628, 770255983, 1249150122, 1555081692, 1996064986,
   2554220882, 2821834349, 2952996808, 3210313671, 3336571891, 3584528711,
   113926993, 338241895, 666307205, 773529912, 1294757372, 1396182291,
   1695183700, 1986661051, 2177026350, 2456956037, 2730485921, 2820302411,
   3259730800, 3345764771, 3516065817, 3600352804, 4094571909, 275423344,
   430227734, 506948616, 659060556, 883997877, 958139571, 1322822218,
   1537002063, 1747873779, 1955562222, 2024104815, 2227730452, 2361852424,
   2428436474, 2756734187, 3204031479, 3329325298]

/-- Working state: eight 32-bit words. -/
structure Hs where
  a : Nat
  b : Nat
  c : Nat
  d : Nat
  e : Nat
  f : Nat
  g : Nat
  h : Nat
deriving DecidableEq

/-- Initial hash value (FIPS 180-4 section 5.3.3, written in decimal). -/
def H0 : Hs :=
  ⟨1779033703, 3144134277, 1013904242, 2773480762,
   1359893119, 2600822924, 528734635, 1541459225⟩

/-- Big-endian 8-byte encoding of a length in bits. -/
def beBytes8 (n : Nat) : List Nat :=
  [(n >>> 56) &&& 255, (n >>> 48) &&& 255, (n >>> 40) &&& 255, (n >>> 32) &&& 255,
   (n >>> 24) &&& 255, (n >>> 16) &&& 255, (n >>> 8) &&& 255, n &&& 255]

/-- Append the `0x80` byte, zero padding and the 64-bit message length. -/
def pad (msg : List Nat) : List Nat :=
  let l := msg.length
  msg ++ [0x80] ++ List.replicate ((64 - ((l + 9) % 64)) % 64) 0 ++ beBytes8 (8 * l)

/-- Group bytes into big-endian 32-bit words. -/
def toWords : List Nat → List Nat
  | a :: b :: c :: d :: rest => (((a * 256 + b) * 256 + c) * 256 + d) :: toWords rest
  | _ => []

/-- Split into 64-byte blocks (`fuel` bounds the recursion structurally). -/
def chunksF : Nat → List Nat → List (List Nat)
  | 0, _ => []
  | _ + 1, [] => []
  | fuel + 1, l => l.take 64 :: chunksF fuel (l.drop 64)

/-- Extend sixteen message words to the 64-word schedule. -/
def msgSchedule (ws : List Nat) : Array Nat :=
  (List.range 48).foldl
    (fun arr i =>
      let t := i + 16
      arr.push (w32 (ssig1 ((arr.get? (t - 2)).getD 0) + (arr.get? (t - 7)).getD 0 +
                     ssig0 ((arr.get? (t - 15)).getD 0) + (arr.get? (t - 16)).getD 0)))
    ws.toArray

/-- One compression round. -/
def round1 (k w : Nat) (s : Hs) : Hs :=
  let t1 := w32 (s.h + bsig1 s.e + ch s.e s.f s.g + k + w)
  let t2 := w32 (bsig0 s.a + maj s.a s.b s.c)
  ⟨w32 (t1 + t2), s.a, s.b, s.c, w32 (s.d + t1), s.e, s.f, s.g⟩

/-- Compress one 64-byte block into the running state. -/
def compressBlock (hs : Hs) (block : List Nat) : Hs :=
  let w := msgSchedule (toWords block)
  let s := (List.range 64).foldl
    (fun s i => round1 (K.getD i 0) ((w.get? i).getD 0) s) hs
  ⟨w32 (hs.a + s.a), w32 (hs.b + s.b), w32 (hs.c + s.c), w32 (hs.d + s.d),
   w32 (hs.e + s.e), w32 (hs.f + s.f), w32 (hs.g + s.g), w32 (hs.h + s.h)⟩

/-- SHA-256 final state of a byte string. -/
def hashBytes (msg : List Nat) : Hs :=
  let p := pad msg
  (chunksF (p.length + 1) p).foldl compressBlock H0

end SHA256

/-- UTF-8 bytes of a string; the engine's seeds are ASCII, where UTF-8 is the
code point itself. -/
def strBytes (s : String) : List Nat := s.data.map (fun c => c.toNat)

/-- `hash.readUInt32BE(0)` of the SHA-256 digest: the first output word. -/
def sha256FirstWord (s : String) : Nat := (SHA256.hashBytes (strBytes s)).a

/-- FIPS 180-4 test vector: first digest word of `"abc"`. -/
theorem sha256FirstWord_abc : sha256FirstWord "abc" = 0xba7816bf := by decide

/-- FIPS 180-4 test vector: first digest word of the empty string. -/
theorem sha256FirstWord_empty : sha256FirstWord "" = 0xe3b0c442 := by decide

/-! ## Domain model (`src/unnamed/part_009` imports from `./domain`) -/

/-- Trade side (`TradeSide` in `domain.ts`). -/
inductive TradeSide where
  | YES
  | NO
deriving DecidableEq

/-- Agent risk level. -/
inductive RiskLevel where
  | LOW
  | MEDIUM
  | HIGH
deriving DecidableEq

/-- Trade status. -/
inductive TradeStatus where
  | OPEN
  | CLOSED
deriving DecidableEq

/-- Five-component score breakdown of a `ScoredMarket`. -/
structure ScoreComponents where
  volumeScore : ℚ
  liquidityScore : ℚ
  priceMovementScore : ℚ
  newsScore : ℚ
  probScore : ℚ
deriving DecidableEq

/-- A market together with its score (`ScoredMarket` in `domain.ts`; only the
fields read by the trade engine are kept). -/
structure ScoredMarket where
  id : String
  question : String
  category : String
  currentProbability : ℚ
  score : ℚ
  components : ScoreComponents
deriving DecidableEq

/-- Agent profile (`AgentProfile` in `domain.ts`; fields read by the engine
and the cycle runner). -/
structure AgentProfile where
  id : String
  displayName : String
  risk : RiskLevel
  minVolume : ℚ
  minLiquidity : ℚ
  maxTrades : Nat
deriving DecidableEq

/-- News-relevance summary handed to the engine (`NewsRelevance`). -/
structure NewsRelevance where
  count : Nat
deriving DecidableEq

/-- A trade as produced by the engine (`AgentTrade`; fields read by the
cycle runner and the agent-trade cache). -/
structure AgentTrade where
  id : String
  agentId : String
  marketId : String
  side : TradeSide
  confidence : ℚ
  score : ℚ
  status : TradeStatus
  investmentUsd : ℚ
deriving DecidableEq

/-- A news article (`NewsArticle` in `domain.ts`; the engine forwards the
articles to the LLM context only, so the payload fields are opaque here). -/
structure NewsArticle where
  id : String
  title : String
deriving DecidableEq

/-- An AI trade decision (`AITradeDecision` in `ai-clients.ts`). -/
structure AITradeDecision where
  side : TradeSide
  confidence : ℚ
  reasoning : List String
deriving DecidableEq

/-! ## Deterministic primitives (`src/unnamed/part_009` lines 16-47) -/

/-- `deterministicSeed` (part_009 lines 16-18): `agentId:marketId:index`. -/
def deterministicSeed (agentId marketId : String) (index : Nat) : String :=
  agentId ++ ":" ++ marketId ++ ":" ++ toString index

/-- `deterministicNumber` (part_009 lines 23-27): first SHA-256 word of the
seed divided by `0xFFFFFFFF`. -/
def deterministicNumber (seed : String) : ℚ :=
  (sha256FirstWord seed : ℚ) / 4294967295

/-- `getDeterministicSide` (part_009 lines 32-37). -/
def getDeterministicSide (scored : ScoredMarket) (seed : String) : TradeSide :=
  let num := deterministicNumber seed
  let probBias : ℚ := if scored.currentProbability > 1/2 then 6/10 else 4/10
  if num < probBias then .YES else .NO

/-- `getDeterministicConfidence` (part_009 lines 42-47):
`max(0.4, min(0.95, score/100 * riskMultiplier + jitter))` with
`jitter = (deterministicNumber(seed + 'jitter') - 0.5) * 0.1`. -/
def getDeterministicConfidence (scored : ScoredMarket) (agent : AgentProfile)
    (seed : String) : ℚ :=
  let baseConfidence := scored.score / 100
  let riskMultiplier : ℚ :=
    match agent.risk with
    | .HIGH => 11/10
    | .LOW => 9/10
    | .MEDIUM => 1
  let jitter := (deterministicNumber (seed ++ "jitter") - 1/2) * (1/10)
  max (4/10) (min (95/100) (baseConfidence * riskMultiplier + jitter))

/-- `getDeterministicReasoning` (part_009 lines 52-76). -/
def getDeterministicReasoning (scored : ScoredMarket)
    (newsRelevance : NewsRelevance) : List String :=
  let reasons :=
    (if scored.components.volumeScore > 20 then
      ["High trading volume indicates strong market interest"] else []) ++
    (if scored.components.liquidityScore > 15 then
      ["Strong liquidity provides good entry/exit opportunities"] else []) ++
    (if scored.components.priceMovementScore > 10 then
      ["Significant price movement suggests momentum"] else []) ++
    (if scored.components.newsScore > 15 then
      ["Recent news coverage (" ++ toString newsRelevance.count ++
       " articles) supports market activity"] else []) ++
    (if scored.components.probScore > 7 then
      ["Probability near 50% provides good risk/reward"] else [])
  if reasons = [] then ["Market meets minimum criteria for trading"] else reasons

/-! ## Trade generation engine (`src/unnamed/part_009` lines 89-305)

`generateTradeForMarket` consults three collaborators whose sources are not
under `src/`: the web-search adapter (`./web-search`), the LLM client layer
(`./ai-clients`) and the personality rules (`./personality`).  They are
passed in as an explicit environment, so every theorem below quantifies over
all of their possible behaviours. -/

/-- One web-search result (spec section 4.4). -/
structure WebResult where
  title : String
  snippet : String
  url : String
  source : String
deriving DecidableEq

/-- Input handed to `applyPersonalityRules` (part_009 lines 189-197). -/
structure PersonalityInput where
  market : ScoredMarket
  agent : AgentProfile
  baseSide : TradeSide
  baseConfidence : ℚ
  baseSizeUsd : ℚ

/-- Output of `applyPersonalityRules` (fields read at part_009 lines
201-202 and 232). -/
structure PersonalityResult where
  side : TradeSide
  confidence : ℚ
  sizeUsd : ℚ

/-- Environment of one `generateTradeForMarket` call. `webSearch = none`
models a web search that threw (caught at part_009 line 123, leaving the
result list empty); `aiOutcome` is what `getAITradeDecision` would resolve or
reject with; `persona` is the pure personality adjustment.

Modelled from the spec: `isAIConfigured`/`getAITradeDecision`
(`ai-clients.ts`) and `applyPersonalityRules` (`personality.ts`) are absent
from `src/`; per spec sections 4.6 and 4.8 the former yields a decision or an
"unavailable" failure and the latter is a pure modifier of side, confidence
and size. -/
structure EngineEnv where
  webSearch : Option (List WebResult)
  aiConfigured : Bool
  aiOutcome : Except String AITradeDecision
  persona : PersonalityInput → PersonalityResult

/-- A thrown JavaScript error. -/
inductive JsError where
  | referenceError (name : String)
deriving DecidableEq

/-- Risk adjustment applied to an AI confidence (part_009 lines 159-163). -/
def riskAdjustAI (risk : RiskLevel) (confidence : ℚ) : ℚ :=
  match risk with
  | .HIGH => min (confidence * (105/100)) (95/100)
  | .LOW => max (confidence * (9/10)) (4/10)
  | .MEDIUM => confidence

/-- Decision phase of `generateTradeForMarket` (part_009 lines 128-182):
side, confidence and reasoning from the AI branch when configured and
successful, otherwise from the deterministic fallback helpers. -/
def decisionOf (env : EngineEnv) (agent : AgentProfile) (scored : ScoredMarket)
    (newsRelevance : NewsRelevance) (seed : String) :
    TradeSide × ℚ × List String :=
  if env.aiConfigured then
    match env.aiOutcome with
    | .ok d =>
      let webResults := env.webSearch.getD []
      let reasoning :=
        if webResults.length > 0 then
          (("Web research: " ++ toString webResults.length ++
            " sources analyzed") :: d.reasoning).take 3
        else d.reasoning
      (d.side, riskAdjustAI agent.risk d.confidence, reasoning)
    | .error _ =>
      (getDeterministicSide scored seed,
       getDeterministicConfidence scored agent seed,
       getDeterministicReasoning scored newsRelevance)
  else
    (getDeterministicSide scored seed,
     getDeterministicConfidence scored agent seed,
     getDeterministicReasoning scored newsRelevance)

/-- `Math.round`: round half toward positive infinity. -/
def roundJS (q : ℚ) : ℤ := ⌊q + 1/2⌋

/-- `RISK_BUDGET` (part_009 lines 209-213). -/
def RISK_BUDGET : RiskLevel → ℚ
  | .LOW => 80
  | .MEDIUM => 150
  | .HIGH => 250

/-- `s.charCodeAt(0)` for the non-empty ASCII market ids the engine sees
(JavaScript yields `NaN` on the empty string; the engine's market ids are
non-empty). -/
def charCodeAt0 (s : String) : Nat :=
  match s.data with
  | [] => 0
  | c :: _ => c.toNat

/-- Position size before the hard caps (part_009 lines 206-238): risk budget
times confidence and score multipliers, personality size multiplier, and the
market-id variation. -/
def rawInvestment (risk : RiskLevel) (confidence score personaMult : ℚ)
    (marketId : String) : ℚ :=
  let baseRisk := RISK_BUDGET risk
  let confidenceMultiplier := 1/2 + confidence * 2
  let normalizedScore := min 1 (max 0 ((score - 10) / 40))
  let scoreMultiplier := 4/10 + normalizedScore * (16/10)
  let marketVariation : ℚ := (charCodeAt0 marketId % 20 : ℕ) / 100
  baseRisk * confidenceMultiplier * scoreMultiplier * personaMult *
    (1 + marketVariation)

/-- The size after the 20%-of-capital cap `MAX_INVESTMENT = 600`
(part_009 line 243, inner `Math.min`). -/
def cappedInvestment (risk : RiskLevel) (confidence score personaMult : ℚ)
    (marketId : String) : ℚ :=
  min (rawInvestment risk confidence score personaMult marketId) 600

/-- Final investment (part_009 lines 241-246): floor at
`MIN_INVESTMENT = 130`, then round to the nearest 10 dollars. -/
def computeFinalInvestment (risk : RiskLevel) (confidence score personaMult : ℚ)
    (marketId : String) : ℚ :=
  (roundJS (max 130 (cappedInvestment risk confidence score personaMult marketId)
     / 10) : ℚ) * 10

/-- `generateTradeForMarket` (part_009 lines 89-305).  Markets scoring below
8 are skipped (`.ok none`, line 101).  For any other market, evaluation runs
the decision phase, the personality rules and the position sizing, and then
reaches `(marketHash % 3) === 0` at line 250 — `marketHash` is not defined
anywhere in the file, so the call raises a `ReferenceError` instead of
returning a trade. -/
def generateTradeForMarket (env : EngineEnv) (agent : AgentProfile)
    (scored : ScoredMarket) (newsRelevance : NewsRelevance)
    (_newsArticles : List NewsArticle) (index : Nat) (_now : ℤ) :
    Except JsError (Option AgentTrade) :=
  if scored.score < 8 then .ok none
  else
    let seed := deterministicSeed agent.id scored.id index
    let decision := decisionOf env agent scored newsRelevance seed
    let personalityResult := env.persona
      ⟨scored, agent, decision.1, decision.2.1, 100⟩
    let confidence := personalityResult.confidence
    let personalitySizeMultiplier := personalityResult.sizeUsd / 100
    let _finalInvestment := computeFinalInvestment agent.risk confidence
      scored.score personalitySizeMultiplier scored.id
    .error (.referenceError "marketHash")

/-- Unfolding helper: the engine skips markets below score 8 and raises the
`marketHash` `ReferenceError` on every other market. -/
theorem generateTradeForMarket_eq (env : EngineEnv) (agent : AgentProfile)
    (scored : ScoredMarket) (newsRelevance : NewsRelevance)
    (newsArticles : List NewsArticle) (index : Nat) (now : ℤ) :
    generateTradeForMarket env agent scored newsRelevance newsArticles index now =
      if scored.score < 8 then .ok none
      else .error (.referenceError "marketHash") := by
  unfold generateTradeForMarket
  split <;> rfl

/-! ## Per-agent trade generation (`src/unnamed/part_010` lines 1560-1633)

`generateAgentTrades` fetches markets and news, consults the agent-trade
cache, filters and scores candidates (`scoring.ts`, absent from `src/`), and
then loops over the top markets calling `generateTradeForMarket`; a
per-market throw is caught at line 1618 and the loop continues.  The scored
top markets, the per-market environments and the news-relevance computation
are parameters here, so the theorems hold for every market set. -/

/-- The generation loop of `generateAgentTrades` (part_010 lines 1600-1627):
push each successfully generated trade, skip `null` results, catch and skip
per-market errors, and stop once `agent.maxTrades` trades were collected. -/
def generateTradesLoop (agent : AgentProfile) (envs : Nat → EngineEnv)
    (newsRel : ScoredMarket → NewsRelevance) (newsArticles : List NewsArticle)
    (nowMs : ℤ) : List ScoredMarket → Nat → List AgentTrade → List AgentTrade
  | [], _, trades => trades
  | scored :: rest, i, trades =>
    let trades' :=
      match generateTradeForMarket (envs i) agent scored (newsRel scored)
          newsArticles i nowMs with
      | .ok (some t) => trades ++ [t]
      | .ok none => trades
      | .error _ => trades
    if agent.maxTrades ≤ trades'.length then trades'
    else generateTradesLoop agent envs newsRel newsArticles nowMs rest (i + 1) trades'

/-- `generateAgentTrades` after the market/news fetch (part_010 lines
1569-1632): return the cached trade set on a cache hit, otherwise run the
generation loop over the scored top markets and cache the result.  An empty
candidate list short-circuits to `[]` (line 1580), which coincides with the
loop on an empty list. -/
def generateAgentTrades (cached : Option (List AgentTrade))
    (agent : AgentProfile) (envs : Nat → EngineEnv)
    (newsRel : ScoredMarket → NewsRelevance) (newsArticles : List NewsArticle)
    (nowMs : ℤ) (topMarkets : List ScoredMarket) : List AgentTrade :=
  match cached with
  | some trades => trades
  | none => generateTradesLoop agent envs newsRel newsArticles nowMs topMarkets 0 []

/-- The generation loop never adds a trade: every iteration either skips
(score below 8) or catches the `marketHash` `ReferenceError`. -/
theorem generateTradesLoop_acc (agent : AgentProfile) (envs : Nat → EngineEnv)
    (newsRel : ScoredMarket → NewsRelevance) (newsArticles : List NewsArticle)
    (nowMs : ℤ) :
    ∀ (markets : List ScoredMarket) (i : Nat) (trades : List AgentTrade),
      generateTradesLoop agent envs newsRel newsArticles nowMs markets i trades
        = trades := by
  intro markets
  induction markets with
  | nil => intro i trades; rfl
  | cons scored rest ih =>
    intro i trades
    rw [generateTradesLoop, generateTradeForMarket_eq]
    split
    · simp only
      split
      · rfl
      · exact ih (i + 1) trades
    · simp only
      split
      · rfl
      · exact ih (i + 1) trades

/-- Claim C1: `generateTradeForMarket` never returns a trade — a market with
score below 8 is skipped (`null`), and a market with score at least 8 reaches
the expression `(marketHash % 3) === 0` whose identifier `marketHash` is
undefined, so the call raises a `ReferenceError`; and `generateAgentTrades`,
which catches each per-market error and continues, returns the empty trade
list for every agent, every market set, and every behaviour of the web
search, the LLM layer and the personality rules. -/
theorem generateTradeForMarket_never_trades (env : EngineEnv)
    (agent : AgentProfile) (scored : ScoredMarket)
    (newsRelevance : NewsRelevance) (newsArticles : List NewsArticle)
    (index : Nat) (now : ℤ)
    (envs : Nat → EngineEnv) (newsRel : ScoredMarket → NewsRelevance)
    (topMarkets : List ScoredMarket) :
    generateTradeForMarket env agent scored newsRelevance newsArticles index now
        = (if scored.score < 8 then Except.ok none
           else Except.error (JsError.referenceError "marketHash")) ∧
    generateAgentTrades none agent envs newsRel newsArticles now topMarkets
        = [] := by
  refine ⟨generateTradeForMarket_eq .., ?_⟩
  unfold generateAgentTrades
  exact generateTradesLoop_acc agent envs newsRel newsArticles now topMarkets 0 []

/-- Claim C3: with no LLM credential configured (`isAIConfigured` false), the
result of `generateTradeForMarket` is the same across any two evaluations —
even under different web-search outcomes and different would-be LLM responses
— and the decision phase takes side, confidence and reasoning exactly from
the sha256-based deterministic helpers applied to the seed
`agentId:marketId:index`. -/
theorem generateTrade_fallback_deterministic (agent : AgentProfile)
    (scored : ScoredMarket) (newsRelevance : NewsRelevance)
    (newsArticles : List NewsArticle) (index : Nat) (now : ℤ)
    (persona : PersonalityInput → PersonalityResult)
    (w1 w2 : Option (List WebResult)) (ai1 ai2 : Except String AITradeDecision) :
    generateTradeForMarket ⟨w1, false, ai1, persona⟩ agent scored newsRelevance
        newsArticles index now =
      generateTradeForMarket ⟨w2, false, ai2, persona⟩ agent scored newsRelevance
        newsArticles index now ∧
    decisionOf ⟨w1, false, ai1, persona⟩ agent scored newsRelevance
        (deterministicSeed agent.id scored.id index) =
      (getDeterministicSide scored (deterministicSeed agent.id scored.id index),
       getDeterministicConfidence scored agent
         (deterministicSeed agent.id scored.id index),
       getDeterministicReasoning scored newsRelevance) := by
  rw [generateTradeForMarket_eq, generateTradeForMarket_eq]
  exact ⟨rfl, rfl⟩

/-- Claim C4: for the same agent, scored market, index and timestamp, the
engine behaves identically when the agent has no LLM credential and when the
LLM path is enabled but the call fails — both branches take side, confidence
and reasoning from the same deterministic fallback helpers applied to the
same seed, so the overall evaluation result is equal as well. -/
theorem generateTrade_fallback_roundTrip (agent : AgentProfile)
    (scored : ScoredMarket) (newsRelevance : NewsRelevance)
    (newsArticles : List NewsArticle) (index : Nat) (now : ℤ)
    (persona : PersonalityInput → PersonalityResult)
    (w1 w2 : Option (List WebResult)) (ai : Except String AITradeDecision)
    (err : String) :
    generateTradeForMarket ⟨w1, false, ai, persona⟩ agent scored newsRelevance
        newsArticles index now =
      generateTradeForMarket ⟨w2, true, Except.error err, persona⟩ agent scored
        newsRelevance newsArticles index now ∧
    decisionOf ⟨w1, false, ai, persona⟩ agent scored newsRelevance
        (deterministicSeed agent.id scored.id index) =
      decisionOf ⟨w2, true, Except.error err, persona⟩ agent scored newsRelevance
        (deterministicSeed agent.id scored.id index) := by
  rw [generateTradeForMarket_eq, generateTradeForMarket_eq]
  exact ⟨rfl, rfl⟩

/-! ## Claim C5: the fallback confidence formula -/

/-- The confidence formula as the claim states it (spec section 4.7): the
per-risk bound (`min(raw*1.10, 0.95)` for HIGH, `max(raw*0.90, 0.40)` for
LOW) is applied BEFORE the jitter is added, and the sum is then clamped to
`[0.40, 0.95]`. -/
def specRiskCappedConfidence (scored : ScoredMarket) (agent : AgentProfile)
    (seed : String) : ℚ :=
  let raw := scored.score / 100
  let riskAdjusted : ℚ :=
    match agent.risk with
    | .HIGH => min (raw * (11/10)) (95/100)
    | .LOW => max (raw * (9/10)) (4/10)
    | .MEDIUM => raw
  let jitter := (deterministicNumber (seed ++ "jitter") - 1/2) * (1/10)
  max (4/10) (min (95/100) (riskAdjusted + jitter))

/-- The amended confidence formula: the raw confidence is scaled by the risk
multiplier WITHOUT any per-risk bound, the jitter is added, and only then is
the sum clamped once to `[0.40, 0.95]`. -/
def riskScaledJitteredConfidence (scored : ScoredMarket) (agent : AgentProfile)
    (seed : String) : ℚ :=
  let raw := scored.score / 100
  let scaled : ℚ :=
    match agent.risk with
    | .HIGH => raw * (11/10)
    | .LOW => raw * (9/10)
    | .MEDIUM => raw
  let jitter := (deterministicNumber (seed ++ "jitter") - 1/2) * (1/10)
  max (4/10) (min (95/100) (scaled + jitter))

/-- First SHA-256 word of the jitter seed `GROK_4:m2:0jitter`; it is below
`2^31`, so the jitter draw is below 0.5 and the jitter is negative. -/
theorem sha256FirstWord_jitterSeed :
    sha256FirstWord ("GROK_4:m2:0" ++ "jitter") = 1695618701 := by decide

/-- Claim C5 fails on the code: at score 100, HIGH risk and the seed
`GROK_4:m2:0` (whose jitter draw is below 0.5, so the jitter is negative),
the code clamps `1.1 + jitter` to exactly 0.95, while the claimed formula
caps at 0.95 before adding the jitter and returns `0.95 + jitter < 0.95`. -/
theorem getDeterministicConfidence_spec_counterexample :
    getDeterministicConfidence
        ⟨"m2", "q", "Crypto", 1/2, 100, ⟨0, 0, 0, 0, 0⟩⟩
        ⟨"GROK_4", "Grok 4", .HIGH, 0, 0, 5⟩ "GROK_4:m2:0" ≠
      specRiskCappedConfidence
        ⟨"m2", "q", "Crypto", 1/2, 100, ⟨0, 0, 0, 0, 0⟩⟩
        ⟨"GROK_4", "Grok 4", .HIGH, 0, 0, 5⟩ "GROK_4:m2:0" := by
  unfold getDeterministicConfidence specRiskCappedConfidence deterministicNumber
  rw [sha256FirstWord_jitterSeed]
  norm_num [min_def, max_def]

/-- Claim C5 (amended): the fallback confidence equals
`clamp(score/100 * riskMultiplier + jitter, 0.40, 0.95)` — the risk
multiplier (1.10 / 0.90 / 1.0) is applied with NO per-risk pre-jitter bound,
and the single clamp to `[0.40, 0.95]` happens after the jitter is added; in
particular the result always lies in `[0.40, 0.95]`. -/
theorem getDeterministicConfidence_amended (scored : ScoredMarket)
    (agent : AgentProfile) (seed : String) :
    getDeterministicConfidence scored agent seed =
      riskScaledJitteredConfidence scored agent seed ∧
    4/10 ≤ getDeterministicConfidence scored agent seed ∧
    getDeterministicConfidence scored agent seed ≤ 95/100 := by
  refine ⟨?_, le_max_left _ _, max_le (by norm_num) (min_le_left _ _)⟩
  unfold getDeterministicConfidence riskScaledJitteredConfidence
  cases agent.risk <;> simp [mul_one]

/-! ## Claim C6: position sizing never drops a trade for size -/

/-- The final investment always lies in `[130, 600]`: the floor at
`MIN_INVESTMENT = 130` and the cap at `MAX_INVESTMENT = 600` survive the
rounding to the nearest 10 dollars. -/
theorem computeFinalInvestment_bounds (risk : RiskLevel)
    (conf score pm : ℚ) (mid : String) :
    130 ≤ computeFinalInvestment risk conf score pm mid ∧
    computeFinalInvestment risk conf score pm mid ≤ 600 := by
  unfold computeFinalInvestment cappedInvestment roundJS
  set r := rawInvestment risk conf score pm mid with hr
  have h1 : (130 : ℚ) ≤ max 130 (min r 600) := le_max_left _ _
  have h2 : max (130 : ℚ) (min r 600) ≤ 600 :=
    max_le (by norm_num) (min_le_right _ _)
  set x := max (130 : ℚ) (min r 600) with hxdef
  have hf1 : (13 : ℤ) ≤ ⌊x / 10 + 1/2⌋ := by
    apply Int.le_floor.mpr
    push_cast
    linarith
  have hf2 : ⌊x / 10 + 1/2⌋ ≤ 60 := by
    have hmono : ⌊x / 10 + 1/2⌋ ≤ ⌊(121/2 : ℚ)⌋ := Int.floor_mono (by linarith)
    have h60 : ⌊(121/2 : ℚ)⌋ = 60 := by norm_num [Int.floor_eq_iff]
    omega
  constructor
  · have hc : ((13 : ℤ) : ℚ) ≤ (⌊x / 10 + 1/2⌋ : ℚ) := by exact_mod_cast hf1
    linarith
  · have hc : ((⌊x / 10 + 1/2⌋ : ℤ) : ℚ) ≤ ((60 : ℤ) : ℚ) := by exact_mod_cast hf2
    push_cast at hc
    linarith

/-- Claim C6 fails on the code: at LOW risk, confidence 0, score 8,
personality size multiplier 0.5 and market id `m1`, the size after the
hard caps is 8.72 dollars — far below 1% of the 3000-dollar capital (30
dollars) — yet the sizing floors it to the 130-dollar minimum instead of
dropping the trade, and `generateTradeForMarket` does not return the `null`
skip signal for that market (its only `null` return is the score-below-8
skip). -/
theorem minimum_size_drop_counterexample :
    cappedInvestment .LOW 0 8 (1/2) "m1" < 30 ∧
    computeFinalInvestment .LOW 0 8 (1/2) "m1" = 130 ∧
    generateTradeForMarket
        ⟨none, false, Except.error "down", fun _ => ⟨.YES, 0, 50⟩⟩
        ⟨"CLAUDE_4_5", "Claude", .LOW, 0, 0, 5⟩
        ⟨"m1", "q", "Crypto", 1/2, 8, ⟨0, 0, 0, 0, 0⟩⟩ ⟨0⟩ [] 0 0 ≠
      Except.ok none := by
  have hc : charCodeAt0 "m1" = 109 := rfl
  refine ⟨?_, ?_, ?_⟩
  · unfold cappedInvestment rawInvestment RISK_BUDGET
    rw [hc]
    norm_num [min_def]
  · unfold computeFinalInvestment cappedInvestment rawInvestment RISK_BUDGET roundJS
    rw [hc]
    norm_num [min_def, max_def, Int.floor_eq_iff]
  · rw [generateTradeForMarket_eq]
    norm_num
    intro h
    exact Except.noConfusion h

/-- Claim C6 (amended): there is no 1%-of-capital drop rule — the sizing
clamps every candidate's investment into `[130, 600]` dollars (sizes below
the minimum are floored to 130, never dropped), and the only skip condition
of `generateTradeForMarket` is a market score below 8. -/
theorem investment_floored_not_dropped (env : EngineEnv)
    (agent : AgentProfile) (scored : ScoredMarket)
    (newsRelevance : NewsRelevance) (newsArticles : List NewsArticle)
    (index : Nat) (now : ℤ) (risk : RiskLevel) (conf score pm : ℚ)
    (mid : String) :
    (generateTradeForMarket env agent scored newsRelevance newsArticles
        index now = Except.ok none ↔ scored.score < 8) ∧
    130 ≤ computeFinalInvestment risk conf score pm mid ∧
    computeFinalInvestment risk conf score pm mid ≤ 600 := by
  refine ⟨?_, computeFinalInvestment_bounds ..⟩
  rw [generateTradeForMarket_eq]
  split <;> simp_all

/-! ## Claim C2: the persistence adapter
(`src/dist-server/lib/agents/persistence.js` lines 9-16,
`src/unnamed/part_009` lines 343-352)

Both copies of `getPersistenceAdapter` return a self-described placeholder:
`saveTrade` resolves without writing, `loadTrades` always resolves to `[]`.
The durable store is modelled explicitly so that "what is persisted" is
observable. -/

/-- `AgentTradeRecord` (part_009 lines 319-329); `openedAt`/`closedAt` are
the parsed millisecond instants of the ISO strings. -/
structure AgentTradeRecord where
  id : String
  agentId : String
  marketId : String
  category : Option String
  side : TradeSide
  status : TradeStatus
  openedAt : ℤ
  closedAt : Option ℤ
  pnlUsd : Option ℚ
deriving DecidableEq

/-- `saveTrade` of the placeholder adapter: the durable store is left
untouched and the returned promise resolves (nothing is ever rejected). -/
def saveTrade (store : List AgentTradeRecord) (_trade : AgentTradeRecord) :
    List AgentTradeRecord × Except String Unit :=
  (store, Except.ok ())

/-- `loadTrades` of the placeholder adapter: always resolves to `[]`. -/
def loadTrades (_store : List AgentTradeRecord) (_agentId : String) :
    List AgentTradeRecord := []

/-- Claim C2 fails on the code: applying `saveTrade` twice for the same
trade id leaves zero persisted records for that id, not one; and a write
that would reopen a CLOSED trade resolves successfully instead of being
rejected. -/
theorem saveTrade_counterexample :
    ((loadTrades
        ((saveTrade ((saveTrade []
            ⟨"GROK_4:m1", "GROK_4", "m1", some "Crypto", .YES, .OPEN,
             0, none, none⟩).1)
          ⟨"GROK_4:m1", "GROK_4", "m1", some "Crypto", .YES, .OPEN,
           0, none, none⟩).1) "GROK_4").filter
        (fun r => r.id = "GROK_4:m1")).length = 0 ∧
    (saveTrade ((saveTrade []
        ⟨"GROK_4:m1", "GROK_4", "m1", some "Crypto", .YES, .CLOSED,
         0, some 100, some 10⟩).1)
      ⟨"GROK_4:m1", "GROK_4", "m1", some "Crypto", .YES, .OPEN,
       200, none, none⟩).2 = Except.ok () := by
  exact ⟨rfl, rfl⟩

/-- Claim C2 (amended): both `getPersistenceAdapter` implementations are
placeholders — `saveTrade` is a no-op that leaves the persisted collection
unchanged and never rejects any write (including one that would reopen a
CLOSED trade), and `loadTrades` always returns the empty list. -/
theorem saveTrade_placeholder_noop (store : List AgentTradeRecord)
    (trade : AgentTradeRecord) (agentId : String) :
    (saveTrade store trade).1 = store ∧
    (saveTrade store trade).2 = Except.ok () ∧
    loadTrades store agentId = [] := by
  exact ⟨rfl, rfl, rfl⟩

/-! ## Claim C7: the AI decision cache (`src/src/lib/agents/ai-cache.ts`)

The module-level `Map` is modelled as an association list with unique keys;
`Map.get` is `List.lookup` and `Map.delete` removes the key's entry. -/

/-- `AICacheEntry` (ai-cache.ts lines 12-15). -/
structure AICacheEntry where
  decision : AITradeDecision
  cachedAt : ℤ
deriving DecidableEq

/-- `AI_CACHE_TTL` (ai-cache.ts line 17): 30 seconds. -/
def AI_CACHE_TTL : ℤ := 30 * 1000

/-- Cache key (ai-cache.ts line 24): `agentId:marketId`. -/
def aiCacheKey (agentId marketId : String) : String := agentId ++ ":" ++ marketId

/-- Remove a key from an association-list map (`Map.delete`). -/
def mapDelete {α : Type} (key : String) : List (String × α) → List (String × α)
  | [] => []
  | p :: rest =>
    if p.1 = key then mapDelete key rest else p :: mapDelete key rest

/-- `setCachedAIDecision` (ai-cache.ts lines 43-53): `Map.set` stores the
decision with the current time under `agentId:marketId`. -/
def setCachedAIDecision (agentId marketId : String) (decision : AITradeDecision)
    (now : ℤ) (cache : List (String × AICacheEntry)) :
    List (String × AICacheEntry) :=
  (aiCacheKey agentId marketId, ⟨decision, now⟩) ::
    mapDelete (aiCacheKey agentId marketId) cache

/-- `getCachedAIDecision` (ai-cache.ts lines 23-38): a missing key misses;
an entry whose age reaches the TTL is deleted and misses; otherwise the
cached decision is returned. -/
def getCachedAIDecision (agentId marketId : String) (now : ℤ)
    (cache : List (String × AICacheEntry)) :
    Option AITradeDecision × List (String × AICacheEntry) :=
  let key := aiCacheKey agentId marketId
  match cache.lookup key with
  | none => (none, cache)
  | some entry =>
    if now - entry.cachedAt ≥ AI_CACHE_TTL then (none, mapDelete key cache)
    else (some entry.decision, cache)

/-- Looking a key up after deleting it misses. -/
theorem lookup_mapDelete {α : Type} (key : String) (cache : List (String × α)) :
    (mapDelete key cache).lookup key = none := by
  induction cache with
  | nil => rfl
  | cons p rest ih =>
    by_cases h : p.1 = key
    · rw [mapDelete, if_pos h]
      exact ih
    · rw [mapDelete, if_neg h]
      have hb : (key == p.1) = false := beq_eq_false_iff_ne.mpr (Ne.symm h)
      simpa [List.lookup, hb] using ih

/-- Looking up the key just stored returns the fresh entry. -/
theorem lookup_setCachedAIDecision (agentId marketId : String)
    (decision : AITradeDecision) (now : ℤ)
    (cache : List (String × AICacheEntry)) :
    (setCachedAIDecision agentId marketId decision now cache).lookup
        (aiCacheKey agentId marketId) = some ⟨decision, now⟩ := by
  simp [setCachedAIDecision, List.lookup]

/-- Claim C7 fails on the code: a decision cached at time 0 and looked up
60 seconds later — well within the claimed 5-minute TTL — misses, because
`AI_CACHE_TTL` is 30 seconds. -/
theorem getCachedAIDecision_ttl_counterexample :
    (getCachedAIDecision "GROK_4" "m1" 60000
        (setCachedAIDecision "GROK_4" "m1" ⟨.YES, 1/2, []⟩ 0 [])).1 = none ∧
    (60000 : ℤ) - 0 < 5 * 60 * 1000 := by
  exact ⟨rfl, by norm_num⟩

/-- Claim C7 (amended): a stored `AITradeDecision` under `agentId:marketId`
is returned by a later lookup if and only if its age is below the 30-SECOND
`AI_CACHE_TTL` (the file carries no 5-minute or configurable 10-minute TTL);
an entry at or past the TTL is removed, so the lookup misses and the key is
gone from the cache afterwards. -/
theorem getCachedAIDecision_ttl (agentId marketId : String)
    (decision : AITradeDecision) (storedAt now : ℤ)
    (cache : List (String × AICacheEntry)) :
    (getCachedAIDecision agentId marketId now
        (setCachedAIDecision agentId marketId decision storedAt cache)).1 =
      (if now - storedAt < 30 * 1000 then some decision else none) ∧
    ((getCachedAIDecision agentId marketId now
        (setCachedAIDecision agentId marketId decision storedAt cache)).2).lookup
          (aiCacheKey agentId marketId) =
      (if now - storedAt < 30 * 1000 then some ⟨decision, storedAt⟩ else none) := by
  have hset := lookup_setCachedAIDecision agentId marketId decision storedAt cache
  by_cases h : now - storedAt ≥ 30 * 1000
  · constructor
    · simp only [getCachedAIDecision, AI_CACHE_TTL, hset]
      rw [if_pos h, if_neg (by omega)]
    · simp only [getCachedAIDecision, AI_CACHE_TTL, hset]
      rw [if_pos h, if_neg (by omega)]
      exact lookup_mapDelete ..
  · constructor
    · simp only [getCachedAIDecision, AI_CACHE_TTL, hset]
      rw [if_neg h, if_pos (by omega)]
    · simp only [getCachedAIDecision, AI_CACHE_TTL, hset]
      rw [if_neg h, if_pos (by omega)]
      exact hset

/-! ## Claim C8: the agent trade cache (`src/unnamed/part_002`) -/

/-- `AgentCacheEntry` (part_002 lines 14-18). -/
structure AgentCacheEntry where
  trades : List AgentTrade
  generatedAt : ℤ
  marketIds : List String
deriving DecidableEq

/-- `CACHE_TTL_MS` (part_002 line 23): 30 seconds. -/
def CACHE_TTL_MS : ℤ := 30 * 1000

/-- `getCachedAgentTrades` (part_002 lines 37-85).  The checks run in source
order: missing entry; TTL (`age >= 30 s` expires); market-id list length and
then element-wise equality (for equal-length lists the element-wise loop of
lines 61-66 is list equality); the `ageSeconds > 20` invalidation of lines
69-75; and the refusal of an empty trade set younger than 10 seconds
(lines 77-82).  Each failing check deletes the entry. -/
def getCachedAgentTrades (agentId : String) (currentMarketIds : List String)
    (now : ℤ) (cache : List (String × AgentCacheEntry)) :
    Option (List AgentTrade) × List (String × AgentCacheEntry) :=
  match cache.lookup agentId with
  | none => (none, cache)
  | some entry =>
    let age := now - entry.generatedAt
    if age ≥ CACHE_TTL_MS then (none, mapDelete agentId cache)
    else if entry.marketIds.length ≠ currentMarketIds.length then
      (none, mapDelete agentId cache)
    else if entry.marketIds ≠ currentMarketIds then (none, mapDelete agentId cache)
    else if (age : ℚ) / 1000 > 20 then (none, mapDelete agentId cache)
    else if entry.trades.length = 0 ∧ (age : ℚ) / 1000 < 10 then
      (none, mapDelete agentId cache)
    else (some entry.trades, cache)

/-- `ageSeconds > 20` in exact rational arithmetic is `age > 20000` ms. -/
theorem ageSeconds_gt20 (age : ℤ) : (age : ℚ) / 1000 > 20 ↔ age > 20000 := by
  rw [gt_iff_lt, lt_div_iff₀ (by norm_num : (0 : ℚ) < 1000)]
  norm_num
  exact_mod_cast Iff.rfl

/-- `ageSeconds < 10` in exact rational arithmetic is `age < 10000` ms. -/
theorem ageSeconds_lt10 (age : ℤ) : (age : ℚ) / 1000 < 10 ↔ age < 10000 := by
  rw [div_lt_iff₀ (by norm_num : (0 : ℚ) < 1000)]
  norm_num
  exact_mod_cast Iff.rfl

/-- Claim C8 fails on the code: an entry generated at time 0 and queried at
25 seconds with the identical market-id list and a non-empty trade set —
within the 30-second TTL, so the claim predicts a hit — misses, because the
cache additionally invalidates every entry older than 20 seconds
(part_002 lines 69-75). -/
theorem getCachedAgentTrades_counterexample :
    (getCachedAgentTrades "GROK_4" ["m1"] 25000
        [("GROK_4", ⟨[⟨"GROK_4:m1", "GROK_4", "m1", .YES, 1/2, 50, .OPEN, 130⟩],
          0, ["m1"]⟩)]).1 = none ∧
    (25000 : ℤ) - 0 < 30 * 1000 := by
  constructor
  · have h20 : ((25000 : ℤ) : ℚ) / 1000 > 20 := by norm_num
    simp only [getCachedAgentTrades, List.lookup, CACHE_TTL_MS]
    norm_num
  · norm_num

/-- Claim C8 (amended): `getCachedAgentTrades` reports a hit exactly when
the stored entry's market-id list equals the current sorted list, the
entry's age is at most 20 seconds (NOT the full 30-second TTL: the cache
invalidates any entry older than 20 seconds even when the markets match),
and the entry is not an empty trade set younger than 10 seconds. -/
theorem getCachedAgentTrades_hit_iff (agentId : String)
    (currentMarketIds : List String) (now : ℤ)
    (cache : List (String × AgentCacheEntry)) :
    (getCachedAgentTrades agentId currentMarketIds now cache).1 =
      match cache.lookup agentId with
      | none => none
      | some entry =>
        if entry.marketIds = currentMarketIds ∧
            now - entry.generatedAt ≤ 20000 ∧
            ¬(entry.trades = [] ∧ now - entry.generatedAt < 10000)
        then some entry.trades else none := by
  cases hl : cache.lookup agentId with
  | none => simp [getCachedAgentTrades, hl]
  | some entry =>
    simp only [getCachedAgentTrades, hl, CACHE_TTL_MS]
    have h20 := ageSeconds_gt20 (now - entry.generatedAt)
    have h10 := ageSeconds_lt10 (now - entry.generatedAt)
    have hlen := List.length_eq_zero (l := entry.trades)
    split_ifs with h1 h2 h3 h4 h5 <;>
      simp_all <;>
      omega

/-! ## Claim C9: the adaptive tuner's 30-day window
(`src/unnamed/part_003`, `computePerformanceSnapshot`, lines 94-147) -/

/-- 30 days in milliseconds (part_003 line 100). -/
def THIRTY_DAYS_MS : ℤ := 30 * 24 * 60 * 60 * 1000

/-- `trade.category || 'Other'` (part_003 line 135): a missing or empty
(falsy) category falls back to `Other`. -/
def catOf (t : AgentTradeRecord) : String :=
  match t.category with
  | none => "Other"
  | some c => if c = "" then "Other" else c

/-- Sort key of the drawdown pass (part_003 lines 121-123):
`closedAt || openedAt`. -/
def closeSortKey (t : AgentTradeRecord) : ℤ := t.closedAt.getD t.openedAt

/-- Stable insertion step for the chronological sort. -/
def insertByCloseTime (t : AgentTradeRecord) :
    List AgentTradeRecord → List AgentTradeRecord
  | [] => [t]
  | u :: rest =>
    if closeSortKey t ≤ closeSortKey u then t :: u :: rest
    else u :: insertByCloseTime t rest

/-- Chronological (stable) sort by `closedAt || openedAt`. -/
def sortByCloseTime : List AgentTradeRecord → List AgentTradeRecord
  | [] => []
  | t :: rest => insertByCloseTime t (sortByCloseTime rest)

/-- Drawdown fold (part_003 lines 117-128): cumulative realized PnL against
its running peak, normalised by `startingCapital + peak`. -/
def drawdownGo (startingCapital : ℚ) :
    List AgentTradeRecord → ℚ → ℚ → ℚ → ℚ
  | [], _, _, maxDD => maxDD
  | t :: ts, running, peak, maxDD =>
    let running' := running + t.pnlUsd.getD 0
    let peak' := max peak running'
    let dd := if peak' > 0 then (peak' - running') / (startingCapital + peak') else 0
    drawdownGo startingCapital ts running' peak' (max maxDD dd)

/-- Per-category PnL accumulation (part_003 lines 134-138). -/
def accCategoryPnl : (String → ℚ) → List AgentTradeRecord → (String → ℚ)
  | m, [] => m
  | m, t :: ts =>
    accCategoryPnl (fun c => if c = catOf t then m c + t.pnlUsd.getD 0 else m c) ts

/-- Per-category trade counting (part_003 lines 134-138). -/
def accCategoryTrades : (String → ℕ) → List AgentTradeRecord → (String → ℕ)
  | m, [] => m
  | m, t :: ts =>
    accCategoryTrades (fun c => if c = catOf t then m c + 1 else m c) ts

/-- The trade set all snapshot figures are computed from (part_003 lines
103-109): trades whose `openedAt` lies within the last 30 days, restricted
to CLOSED trades with a non-null `pnlUsd`. -/
def recentClosedOf (trades : List AgentTradeRecord) (now : ℤ) :
    List AgentTradeRecord :=
  (trades.filter (fun t => t.openedAt ≥ now - THIRTY_DAYS_MS)).filter
    (fun t => t.status = .CLOSED ∧ t.pnlUsd ≠ none)

/-- `AgentPerformanceSnapshot` (part_003 lines 25-31); the category records
are total maps defaulting to 0, mirroring `(x[c] || 0)`. -/
structure AgentPerformanceSnapshot where
  agentId : String
  pnlPct30d : ℚ
  maxDrawdownPct30d : ℚ
  categoryPnl30d : String → ℚ
  categoryTrades30d : String → ℕ

/-- `computePerformanceSnapshot` (part_003 lines 94-147); `now` is the
`Date.now()` instant read at line 99. -/
def computePerformanceSnapshot (agentId : String)
    (trades : List AgentTradeRecord) (startingCapital : ℚ) (now : ℤ) :
    AgentPerformanceSnapshot :=
  let closedTrades := recentClosedOf trades now
  let totalPnlUsd := (closedTrades.map (fun t => t.pnlUsd.getD 0)).sum
  { agentId := agentId
    pnlPct30d :=
      if startingCapital > 0 then totalPnlUsd / startingCapital * 100 else 0
    maxDrawdownPct30d :=
      drawdownGo startingCapital (sortByCloseTime closedTrades) 0 0 0
    categoryPnl30d := accCategoryPnl (fun _ => 0) closedTrades
    categoryTrades30d := accCategoryTrades (fun _ => 0) closedTrades }

/-- The category counter counts exactly the trades of a category. -/
theorem accCategoryTrades_apply (ts : List AgentTradeRecord) :
    ∀ (m : String → ℕ) (c : String),
      accCategoryTrades m ts c = m c + (ts.filter (fun t => c = catOf t)).length := by
  induction ts with
  | nil => intro m c; simp [accCategoryTrades]
  | cons t ts ih =>
    intro m c
    rw [accCategoryTrades, ih, List.filter_cons]
    by_cases h : c = catOf t
    · simp [h]
      omega
    · simp [h]

/-- The category PnL accumulator sums exactly the PnL of a category. -/
theorem accCategoryPnl_apply (ts : List AgentTradeRecord) :
    ∀ (m : String → ℚ) (c : String),
      accCategoryPnl m ts c =
        m c + ((ts.filter (fun t => c = catOf t)).map (fun t => t.pnlUsd.getD 0)).sum := by
  induction ts with
  | nil => intro m c; simp [accCategoryPnl]
  | cons t ts ih =>
    intro m c
    rw [accCategoryPnl, ih, List.filter_cons]
    by_cases h : c = catOf t
    · simp [h]
      ring
    · simp [h]

/-- Filtering to the snapshot's own trade set is idempotent. -/
theorem recentClosedOf_idem (trades : List AgentTradeRecord) (now : ℤ) :
    recentClosedOf (recentClosedOf trades now) now = recentClosedOf trades now := by
  unfold recentClosedOf
  have hA : ((trades.filter (fun t => t.openedAt ≥ now - THIRTY_DAYS_MS)).filter
        (fun t => t.status = .CLOSED ∧ t.pnlUsd ≠ none)).filter
        (fun t => t.openedAt ≥ now - THIRTY_DAYS_MS) =
      (trades.filter (fun t => t.openedAt ≥ now - THIRTY_DAYS_MS)).filter
        (fun t => t.status = .CLOSED ∧ t.pnlUsd ≠ none) := by
    apply List.filter_eq_self.mpr
    intro a ha
    exact (List.mem_filter.mp (List.mem_filter.mp ha).1).2
  rw [hA]
  apply List.filter_eq_self.mpr
  intro a ha
  exact (List.mem_filter.mp ha).2

/-- Claim C9 (amended): every figure of `computePerformanceSnapshot` —
`pnlPct30d`, `maxDrawdownPct30d` and the per-category PnL sums and trade
counts — is derived from exactly the set of CLOSED trades with non-null
`pnlUsd` whose OPENED-AT timestamp falls within the last 30 days before
`now` (the code filters on `openedAt`, not on `closedAt`): restricting the
input to that set leaves the snapshot unchanged, and the per-category
figures are precisely the counts and PnL sums over that set. -/
theorem computePerformanceSnapshot_window (agentId : String)
    (trades : List AgentTradeRecord) (startingCapital : ℚ) (now : ℤ)
    (c : String) :
    computePerformanceSnapshot agentId trades startingCapital now =
      computePerformanceSnapshot agentId (recentClosedOf trades now)
        startingCapital now ∧
    (computePerformanceSnapshot agentId trades startingCapital now).categoryTrades30d
        c = ((recentClosedOf trades now).filter (fun t => c = catOf t)).length ∧
    (computePerformanceSnapshot agentId trades startingCapital now).categoryPnl30d
        c = (((recentClosedOf trades now).filter (fun t => c = catOf t)).map
          (fun t => t.pnlUsd.getD 0)).sum := by
  refine ⟨?_, ?_, ?_⟩
  · unfold computePerformanceSnapshot
    rw [recentClosedOf_idem]
  · unfold computePerformanceSnapshot
    simp only
    rw [accCategoryTrades_apply]
    simp
  · unfold computePerformanceSnapshot
    simp only
    rw [accCategoryPnl_apply]
    simp

/-- Claim C9 fails as stated: a trade opened 40 days ago but CLOSED 5 days
ago — inside the claimed `closedAt` window — contributes nothing: the
snapshot counts zero Crypto trades and zero PnL, because the filter tests
`openedAt`, which is outside the 30-day window. -/
theorem computePerformanceSnapshot_closedAt_counterexample :
    (computePerformanceSnapshot "GROK_4"
        [⟨"GROK_4:m9", "GROK_4", "m9", some "Crypto", TradeSide.YES,
          TradeStatus.CLOSED, 2996544000000, some 2999568000000, some 100⟩]
        3000 3000000000000).categoryTrades30d "Crypto" = 0 ∧
    (computePerformanceSnapshot "GROK_4"
        [⟨"GROK_4:m9", "GROK_4", "m9", some "Crypto", TradeSide.YES,
          TradeStatus.CLOSED, 2996544000000, some 2999568000000, some 100⟩]
        3000 3000000000000).pnlPct30d = 0 ∧
    (2999568000000 : ℤ) ≥ 3000000000000 - THIRTY_DAYS_MS ∧
    (2996544000000 : ℤ) < 3000000000000 - THIRTY_DAYS_MS := by
  have h0 : recentClosedOf
      [⟨"GROK_4:m9", "GROK_4", "m9", some "Crypto", TradeSide.YES,
        TradeStatus.CLOSED, 2996544000000, some 2999568000000, some 100⟩]
      3000000000000 = [] := rfl
  refine ⟨by decide, ?_, ?_, ?_⟩
  · simp [computePerformanceSnapshot, h0]
  · norm_num [THIRTY_DAYS_MS]
  · norm_num [THIRTY_DAYS_MS]

/-! ## Claim C10: the trading cycle runner (`src/unnamed/part_001`)

`runAgentCycle` (lines 23-90) loads the agent profile and the persisted
portfolio, generates trades, counts candidate markets, persists, and maps
everything thrown inside its `try` to a `success: false` result;
`getAgentProfile` runs before the `try`, so a profile-lookup throw rejects
the agent's promise.  `runTradingCycle` (lines 97-135) runs every agent via
`Promise.allSettled` and converts each rejection to a failure record.  The
collaborators reached through the environment (`getAgentProfile` and the
portfolio helpers live in `domain.ts`/`portfolio.ts`, absent from `src/`)
are explicit `Except`-valued parameters, so the theorems quantify over all
their behaviours. -/

/-- Modelled from the spec: `ALL_AGENT_IDS = Object.keys(AGENT_PROFILES)`
(part_001 line 8); `AGENT_PROFILES` lives in `domain.ts`, absent from
`src/`, and per spec section 6 the closed roster is GROK_4, GPT_5,
DEEPSEEK_V3, GEMINI_2_5, CLAUDE_4_5, QWEN_2_5. -/
def ALL_AGENT_IDS : List String :=
  ["GROK_4", "GPT_5", "DEEPSEEK_V3", "GEMINI_2_5", "CLAUDE_4_5", "QWEN_2_5"]

/-- A raw market as seen by the cycle runner (fields read at part_001
lines 59-63). -/
structure Market where
  id : String
  volumeUsd : ℚ
  liquidityUsd : ℚ
deriving DecidableEq

/-- An agent portfolio (fields copied at part_001 lines 33-43;
`openPositions` is the list of position keys). -/
structure AgentPortfolio where
  agentId : String
  startingCapitalUsd : ℚ
  currentCapitalUsd : ℚ
  realizedPnlUsd : ℚ
  unrealizedPnlUsd : ℚ
  maxEquityUsd : ℚ
  maxDrawdownPct : ℚ
  openPositions : List String
deriving DecidableEq

/-- One agent's cycle record (part_001 lines 67-88). -/
structure CycleResult where
  agentId : String
  success : Bool
  candidateMarkets : Nat
  newTrades : Nat
  closedTrades : Nat
  openPositions : Nat
  cycleMs : ℤ
  error : Option String
deriving DecidableEq

/-- Environment of one agent's cycle: the outcome of each awaited or
imported collaborator.  `profile` is `getAgentProfile` (called before the
`try`, so its throw rejects the promise); `updateMetrics` is
`updatePortfolioMetrics`.

Modelled from the spec: `getAgentProfile`, `createInitialPortfolio` and
`updatePortfolioMetrics` (`domain.ts` / `portfolio.ts`) are absent from
`src/`; per spec sections 3 and 4.10 the metrics update is a pure portfolio
transformation. -/
structure AgentCycleEnv where
  profile : Except String AgentProfile
  loadPortfolio : Except String (Option AgentPortfolio)
  updateMetrics : AgentPortfolio → AgentPortfolio
  generateTrades : Except String (List AgentTrade)
  savePortfolio : AgentPortfolio → Except String Unit
  cycleMs : ℤ

/-- Modelled from the spec: `createInitialPortfolio` (portfolio.ts, absent
from `src/`); spec section 3 fixes `startingCapitalUsd = 3000` with no open
positions and no PnL. -/
def createInitialPortfolio (agentId : String) : AgentPortfolio :=
  ⟨agentId, 3000, 3000, 0, 0, 3000, 0, []⟩

/-- Rebuilding a portfolio from its persisted record (part_001 lines
33-43): field-wise copy with `openPositions` reset to empty. -/
def rebuildPortfolio (agentId : String) (r : AgentPortfolio) : AgentPortfolio :=
  ⟨agentId, r.startingCapitalUsd, r.currentCapitalUsd, r.realizedPnlUsd,
   r.unrealizedPnlUsd, r.maxEquityUsd, r.maxDrawdownPct, []⟩

/-- Candidate count (part_001 lines 59-63). -/
def countCandidateMarkets (agent : AgentProfile) (markets : List Market) : Nat :=
  (markets.filter (fun m =>
    m.volumeUsd ≥ agent.minVolume ∧ m.liquidityUsd ≥ agent.minLiquidity)).length

/-- The `catch` record of `runAgentCycle` (part_001 lines 79-88). -/
def failureCycleResult (agentId : String) (cycleMs : ℤ) (msg : String) :
    CycleResult :=
  ⟨agentId, false, 0, 0, 0, 0, cycleMs, some msg⟩

/-- Tail of the `try` block (part_001 lines 64-75): persist the portfolio,
then assemble the success record. -/
def persistAndReport (env : AgentCycleEnv) (agent : AgentProfile)
    (agentId : String) (markets : List Market) (trades : List AgentTrade)
    (portfolio2 : AgentPortfolio) : Except String CycleResult :=
  match env.savePortfolio portfolio2 with
  | .error e => .error e
  | .ok _ =>
    .ok ⟨agentId, true, countCandidateMarkets agent markets,
         (trades.filter (fun t => t.status = .OPEN)).length,
         (trades.filter (fun t => t.status = .CLOSED)).length,
         portfolio2.openPositions.length, env.cycleMs, none⟩

/-- The `try` block of `runAgentCycle` (part_001 lines 27-75). -/
def runAgentCycleTry (env : AgentCycleEnv) (agent : AgentProfile)
    (agentId : String) (markets : List Market) : Except String CycleResult :=
  match env.loadPortfolio with
  | .error e => .error e
  | .ok portfolioRecord =>
    let portfolio :=
      match portfolioRecord with
      | some r => rebuildPortfolio agentId r
      | none => createInitialPortfolio agentId
    let portfolio2 := env.updateMetrics portfolio
    match env.generateTrades with
    | .error e => .error e
    | .ok trades => persistAndReport env agent agentId markets trades portfolio2

/-- `runAgentCycle` (part_001 lines 23-90): a profile-lookup throw rejects;
everything thrown inside the `try` becomes a fulfilled `success: false`
record with the error message. -/
def runAgentCycle (env : AgentCycleEnv) (agentId : String)
    (markets : List Market) : Except String CycleResult :=
  match env.profile with
  | .error e => .error e
  | .ok agent =>
    .ok (match runAgentCycleTry env agent agentId markets with
         | .ok r => r
         | .error e => failureCycleResult agentId env.cycleMs e)

/-- `result.reason?.message || 'Unknown error'` (part_001 line 130): an
empty message is falsy in JavaScript. -/
def normalizeReason (msg : String) : String :=
  if msg = "" then "Unknown error" else msg

/-- Conversion of one settled promise (part_001 lines 115-132). -/
def settleOutcome (agentId : String) (o : Except String CycleResult) :
    CycleResult :=
  match o with
  | .ok r => r
  | .error m => ⟨agentId, false, 0, 0, 0, 0, 0, some (normalizeReason m)⟩

/-- The result-conversion loop (part_001 lines 114-133), indexing
`ALL_AGENT_IDS[i]` alongside the settled outcomes. -/
def settleAll (ids : List String) :
    Nat → List (Except String CycleResult) → List CycleResult
  | _, [] => []
  | i, o :: rest => settleOutcome (ids.getD i "") o :: settleAll ids (i + 1) rest

/-- `runTradingCycle` (part_001 lines 97-135): when enabled, run every
agent's cycle (`Promise.allSettled` keeps one outcome per agent, in roster
order) and convert the outcomes. -/
def runTradingCycle (enabled : Bool) (envs : String → AgentCycleEnv)
    (markets : List Market) : List CycleResult :=
  if enabled then
    settleAll ALL_AGENT_IDS 0
      (ALL_AGENT_IDS.map (fun agentId => runAgentCycle (envs agentId) agentId markets))
  else []

/-- The conversion loop is a per-agent map: each slot depends only on that
agent's own outcome. -/
theorem settleAll_map (f : String → Except String CycleResult) :
    ∀ (post pre : List String),
      settleAll (pre ++ post) pre.length (post.map f) =
        post.map (fun agentId => settleOutcome agentId (f agentId)) := by
  intro post
  induction post with
  | nil => intro pre; rfl
  | cons agentId rest ih =>
    intro pre
    have hget : (pre ++ agentId :: rest).getD pre.length "" = agentId := by
      rw [List.getD_eq_getElem?_getD,
        List.getElem?_append_right (le_refl pre.length)]
      simp
    rw [List.map_cons, settleAll, hget, List.map_cons]
    congr 1
    have hswap : pre ++ agentId :: rest = (pre ++ [agentId]) ++ rest := by simp
    have hlen : pre.length + 1 = (pre ++ [agentId]).length := by simp
    rw [hswap, hlen, ih]

/-- A fulfilled `runAgentCycleTry` record carries the agent's own id. -/
theorem runAgentCycleTry_agentId (env : AgentCycleEnv) (agent : AgentProfile)
    (agentId : String) (markets : List Market) (r : CycleResult)
    (h : runAgentCycleTry env agent agentId markets = .ok r) :
    r.agentId = agentId := by
  have key : ∀ (trades : List AgentTrade) (portfolio2 : AgentPortfolio),
      persistAndReport env agent agentId markets trades portfolio2 = .ok r →
        r.agentId = agentId := by
    intro trades portfolio2
    unfold persistAndReport
    cases env.savePortfolio portfolio2 with
    | error e => intro hh; simp at hh
    | ok u => intro hh; cases hh; rfl
  unfold runAgentCycleTry at h
  repeat' split at h
  all_goals first
    | exact key _ _ h
    | simp at h

/-- Every converted slot carries the agent's own id. -/
theorem settle_runAgentCycle_agentId (env : AgentCycleEnv) (agentId : String)
    (markets : List Market) :
    (settleOutcome agentId (runAgentCycle env agentId markets)).agentId =
      agentId := by
  unfold runAgentCycle
  cases env.profile with
  | error e => rfl
  | ok agent =>
    dsimp only [settleOutcome]
    cases h : runAgentCycleTry env agent agentId markets with
    | ok r =>
      dsimp only
      exact runAgentCycleTry_agentId env agent agentId markets r h
    | error e => rfl

/-- Claim C10: `runTradingCycle` returns exactly one cycle result per agent
id, in roster order; each agent's slot is a function of that agent's own
cycle only (so one agent's failure cannot change a sibling's result); a
rejected `runAgentCycle` yields a record with `success = false` carrying the
error message, and a fulfilled one is passed through unchanged. -/
theorem runTradingCycle_per_agent_isolation (envs : String → AgentCycleEnv)
    (markets : List Market) :
    runTradingCycle true envs markets =
      ALL_AGENT_IDS.map (fun agentId =>
        settleOutcome agentId (runAgentCycle (envs agentId) agentId markets)) ∧
    (runTradingCycle true envs markets).map (fun r => r.agentId) =
      ALL_AGENT_IDS ∧
    ALL_AGENT_IDS.Nodup ∧
    (∀ (agentId msg : String),
      settleOutcome agentId (Except.error msg) =
        ⟨agentId, false, 0, 0, 0, 0, 0, some (normalizeReason msg)⟩) ∧
    (∀ (agentId : String) (r : CycleResult),
      settleOutcome agentId (Except.ok r) = r) := by
  have hmain : runTradingCycle true envs markets =
      ALL_AGENT_IDS.map (fun agentId =>
        settleOutcome agentId (runAgentCycle (envs agentId) agentId markets)) := by
    unfold runTradingCycle
    have := settleAll_map
      (fun agentId => runAgentCycle (envs agentId) agentId markets)
      ALL_AGENT_IDS []
    simpa using this
  refine ⟨hmain, ?_, by decide, fun agentId msg => rfl, fun agentId r => rfl⟩
  have hcongr : ALL_AGENT_IDS.map ((fun r => r.agentId) ∘
      (fun agentId => settleOutcome agentId (runAgentCycle (envs agentId) agentId markets))) =
      ALL_AGENT_IDS.map id :=
    List.map_congr_left (fun a _ => settle_runAgentCycle_agentId (envs a) a markets)
  rw [hmain, List.map_map, hcongr, List.map_id]
